import Mathlib

/-!
Verification of the snapshot-based rbd-mirror image replayer
(`src/tools/rbd_mirror/image_replayer/snapshot/Replayer.cc`).

The replayer's data model, lifecycle state machine, two-phase snapshot
scan (planner) and sync pipeline (executor) are embedded as executable
Lean definitions, translated directly from the C++ source.  Machine
integers become `Nat`/`Int`; `CEPH_NOSNAP` is the 64-bit sentinel
`2^64 - 2`; errno values appear as negative integers (`-EINVAL = -22`,
`-EEXIST = -17`, `-ENOENT = -2`).
-/

namespace Replayer

/-- The `CEPH_NOSNAP` sentinel: "image head" / "no such snap" (`(uint64_t)(-2)`). -/
def CEPH_NOSNAP : Nat := 2 ^ 64 - 2

/-- Modelled from the spec: `MirrorSnapshotNamespace.kind` is one of
`Primary`, `PrimaryDemoted`, `NonPrimary`, `NonPrimaryDemoted` (§3); the
on-disk field is an int-backed enum, so a decoded value outside those four
is possible and is represented by `unknownState` (the scans guard against
it with the "invalid mirror snapshot state" terminals). -/
inductive MirrorSnapshotState where
  | primary
  | primaryDemoted
  | nonPrimary
  | nonPrimaryDemoted
  | unknownState
deriving DecidableEq, Repr

/-- Modelled from the spec: per-snapshot mirror namespace metadata (§3).
Defaults are the C++ member initializers of the value-initialized
namespace object (`m_local_mirror_snap_ns = {}`): an empty `snap_seqs`
map, `complete = false`, `primary_snap_id = CEPH_NOSNAP` and a zero
progress cursor. -/
structure MirrorSnapshotNamespace where
  state : MirrorSnapshotState := .nonPrimary
  complete : Bool := false
  primary_mirror_uuid : String := ""
  primary_snap_id : Nat := CEPH_NOSNAP
  mirror_peer_uuids : List String := []
  snap_seqs : List (Nat × Nat) := []
  last_copied_object_number : Nat := 0
deriving DecidableEq, Repr

/-- Modelled from the spec: a primary classification covers the live and
demoted primary kinds (§2 SnapshotView, §3). -/
def MirrorSnapshotNamespace.is_primary (ns : MirrorSnapshotNamespace) : Bool :=
  match ns.state with
  | .primary | .primaryDemoted => true
  | _ => false

/-- Modelled from the spec: a non-primary classification covers the live
and demoted non-primary kinds (§2 SnapshotView, §3). -/
def MirrorSnapshotNamespace.is_non_primary (ns : MirrorSnapshotNamespace) : Bool :=
  match ns.state with
  | .nonPrimary | .nonPrimaryDemoted => true
  | _ => false

/-- Modelled from the spec: "Demoted — a terminal snapshot marking handoff
of the primary role" (Glossary); holds for both demoted kinds. -/
def MirrorSnapshotNamespace.is_demoted (ns : MirrorSnapshotNamespace) : Bool :=
  match ns.state with
  | .primaryDemoted | .nonPrimaryDemoted => true
  | _ => false

/-- An image's snapshot map, iterated in ascending `snap_id` order:
entries are `(snap_id, namespace)` where `none` stands for a snapshot
without mirror metadata (skipped by both scans). -/
abbrev SnapList := List (Nat × Option MirrorSnapshotNamespace)

/-- Lifecycle states (`STATE_INIT`, `STATE_REPLAYING`, `STATE_IDLE`,
`STATE_COMPLETE`). -/
inductive RState where
  | stInit
  | replaying
  | idle
  | complete
deriving DecidableEq, Repr

/-- The mutex-protected core state of the replayer: lifecycle state, the
error latch, the rescan flag and whether an init/shutdown callback is
currently held (`m_on_init_shutdown != nullptr`). -/
structure Core where
  state : RState
  error_code : Int
  error_description : String
  remote_image_updated : Bool
  on_init_shutdown : Bool
deriving DecidableEq, Repr

/-- Models `Replayer::handle_replay_complete` (Replayer.cc:818-833): latch the
error pair only while `m_error_code == 0`, then transition
`Replaying`/`Idle` to `Complete`. -/
def handle_replay_complete (s : Core) (r : Int) (desc : String) : Core :=
  let s1 := if s.error_code = 0 then
    { s with error_code := r, error_description := desc }
  else s
  if s1.state ≠ .replaying ∧ s1.state ≠ .idle then
    s1
  else
    { s1 with state := .complete }

/-- Models `Replayer::is_replay_interrupted` (Replayer.cc:847-863): a checkpoint
observing `STATE_COMPLETE` resumes the pending shutdown teardown. -/
def is_replay_interrupted (s : Core) : Bool :=
  s.state = .complete

/-- Models `Replayer::shut_down` (Replayer.cc:134-157): asserts no callback is
held and the state is not `Init`, stores the callback, resets the error
latch, swaps the state to `Complete`; returns the new core and whether
teardown is deferred (previous state was `Replaying`).  `none` models a
`ceph_assert` failure. -/
def shut_down (s : Core) : Option (Core × Bool) :=
  if s.on_init_shutdown then none
  else if s.state = .stInit then none
  else
    some ({ s with on_init_shutdown := true, error_code := 0,
                   error_description := "", state := .complete },
          s.state = .replaying)

/-- The immediate teardown tail `unregister_update_watcher →
handle_unregister_update_watcher → wait_for_in_flight_ops →
handle_wait_for_in_flight_ops` (Replayer.cc:751-799): a failed
unregister is routed through `handle_replay_complete`; the held callback
is swapped out and completed with `m_error_code`.  Returns the final core
and the code delivered to `on_finish`. -/
def teardown (s : Core) (unregister_r : Int) : Core × Int :=
  let s1 := if unregister_r < 0 then
    handle_replay_complete s unregister_r
      "failed to unregister remote image update watcher"
  else s
  ({ s1 with on_init_shutdown := false }, s1.error_code)

/-- Observable outcome of `Replayer::init` before the watcher round-trip:
the lifecycle state, a directly queued `on_finish` code (if any), whether
`register_update_watcher` was invoked, and the resolved peer uuid. -/
structure InitOut where
  state : RState
  queued_on_finish : Option Int
  registered_watcher : Bool
  remote_mirror_peer_uuid : String
deriving DecidableEq, Repr

/-- Models `Replayer::init` (Replayer.cc:109-132): on a failed
`get_remote_pool_meta` lookup (`r < 0`) or an empty
`mirror_peer_uuid`, the state becomes `Complete` and `on_finish` is
queued with `r`; otherwise the uuid is stored and the update watcher
registration starts. -/
def init (r : Int) (mirror_peer_uuid : String) : InitOut :=
  if r < 0 ∨ mirror_peer_uuid = "" then
    ⟨.complete, some r, false, ""⟩
  else
    ⟨.stInit, none, true, mirror_peer_uuid⟩

/-! ## SyncPlanner: two-phase scan (`scan_local_mirror_snapshots`,
`scan_remote_mirror_snapshots`, Replayer.cc:229-467) -/

/-- The planner fields set by the local scan
(`m_local_snap_id_start`, `m_local_snap_id_end`,
`m_local_mirror_snap_ns`). -/
structure LocalScan where
  local_snap_id_start : Nat
  local_snap_id_end : Nat
  local_mirror_snap_ns : MirrorSnapshotNamespace
deriving DecidableEq, Repr

/-- Result of `scan_local_mirror_snapshots`: a `handle_replay_complete`
terminal, or the scanned baseline together with the seeded
`m_remote_snap_id_start`. -/
inductive LocalScanResult where
  | replayComplete (code : Int) (desc : String)
  | ok (lst : LocalScan) (remote_snap_id_start : Nat)
deriving DecidableEq, Repr

/-- The local snapshot-map loop (Replayer.cc:247-285): each mirror
snapshot is recorded as the latest namespace, then classified: complete
non-primary and complete primary snapshots advance
`local_snap_id_start` and reset `local_snap_id_end` to head; an
incomplete non-primary snapshot becomes the resume candidate
(`local_snap_id_end`); an incomplete primary or unknown state is a
terminal `-EINVAL`. -/
def scan_local_loop : SnapList → LocalScan → Except (Int × String) LocalScan
  | [], st => .ok st
  | (_, none) :: rest, st => scan_local_loop rest st
  | (local_snap_id, some ns) :: rest, st =>
    let st := { st with local_mirror_snap_ns := ns }
    if ns.is_non_primary then
      if ns.complete then
        scan_local_loop rest
          { st with local_snap_id_start := local_snap_id,
                    local_snap_id_end := CEPH_NOSNAP }
      else
        scan_local_loop rest { st with local_snap_id_end := local_snap_id }
    else if ns.is_primary then
      if ns.complete then
        scan_local_loop rest
          { st with local_snap_id_start := local_snap_id,
                    local_snap_id_end := CEPH_NOSNAP }
      else
        .error (-22, "incomplete local primary snapshot")
    else
      .error (-22, "invalid local mirror snapshot state")

/-- Models `scan_local_mirror_snapshots` (Replayer.cc:229-317): resets the plan
fields, runs the loop, and post-processes: with a baseline present, a
non-primary namespace linked to an unknown peer is terminal `-EEXIST`, a
live primary namespace is the terminal success "force promoted", and a
complete baseline seeds `m_remote_snap_id_start` from its
`primary_snap_id`. -/
def scan_local (snaps : SnapList) (remote_mirror_uuid : String) : LocalScanResult :=
  match scan_local_loop snaps ⟨0, CEPH_NOSNAP, {}⟩ with
  | .error (c, d) => .replayComplete c d
  | .ok st =>
    if 0 < st.local_snap_id_start ∨ st.local_snap_id_end ≠ CEPH_NOSNAP then
      if st.local_mirror_snap_ns.is_non_primary ∧
         st.local_mirror_snap_ns.primary_mirror_uuid ≠ remote_mirror_uuid then
        .replayComplete (-17) "local image linked to unknown peer"
      else if st.local_mirror_snap_ns.state = .primary then
        .replayComplete 0 "force promoted"
      else
        .ok st (if st.local_mirror_snap_ns.complete then
                  st.local_mirror_snap_ns.primary_snap_id
                else 0)
    else
      .ok st 0

/-- The planner fields set by the remote scan (`m_remote_snap_id_start`,
`m_remote_snap_id_end`, `m_remote_mirror_snap_ns`) plus the loop-local
`remote_demoted` latch. -/
structure RemoteScan where
  remote_snap_id_start : Nat
  remote_snap_id_end : Nat
  remote_mirror_snap_ns : MirrorSnapshotNamespace
  remote_demoted : Bool
deriving DecidableEq, Repr

/-- Outcome of one remote-loop iteration: a `handle_replay_complete`
terminal, a `ceph_assert` failure, continue with an updated state, or
break out of the loop (snapshot accepted). -/
inductive StepResult where
  | term (code : Int) (desc : String)
  | assertFail
  | next (st : RemoteScan)
  | brk (st : RemoteScan)
deriving DecidableEq, Repr

/-- The accept tail of the remote loop (Replayer.cc:399-412): skip
non-primary snapshots and primary snapshots missing our peer uuid;
otherwise record `m_remote_snap_id_end` and the namespace and break. -/
def remote_accept (peer : String) (remote_snap_id : Nat)
    (ns : MirrorSnapshotNamespace) (st : RemoteScan) : StepResult :=
  if ¬ ns.is_primary then
    .next st
  else if ¬ ns.mirror_peer_uuids.contains peer then
    .next st
  else
    .brk { st with remote_snap_id_end := remote_snap_id,
                   remote_mirror_snap_ns := ns }

/-- The skip-already-synced region of the remote loop
(Replayer.cc:352-397): with a local baseline, a complete non-primary
baseline skips remote snapshots up to its `primary_snap_id`, an
incomplete one skips strictly below it, a primary-demoted baseline
searches for its matching demotion snapshot, and every other baseline is
`ceph_assert(false)`. -/
def scan_remote_skip (lst : LocalScan)
    (local_mirror_uuid remote_mirror_uuid peer : String)
    (remote_snap_id : Nat) (ns : MirrorSnapshotNamespace)
    (st : RemoteScan) : StepResult :=
  if 0 < lst.local_snap_id_start ∨ lst.local_snap_id_end ≠ CEPH_NOSNAP then
    if lst.local_mirror_snap_ns.is_non_primary then
      if lst.local_mirror_snap_ns.primary_mirror_uuid ≠ remote_mirror_uuid then
        .assertFail
      else if lst.local_mirror_snap_ns.complete ∧
              remote_snap_id ≤ lst.local_mirror_snap_ns.primary_snap_id then
        .next { st with remote_snap_id_start := remote_snap_id }
      else if ¬ lst.local_mirror_snap_ns.complete ∧
              remote_snap_id < lst.local_mirror_snap_ns.primary_snap_id then
        .next { st with remote_snap_id_start := remote_snap_id }
      else
        remote_accept peer remote_snap_id ns st
    else if lst.local_mirror_snap_ns.state = .primaryDemoted then
      if lst.local_snap_id_start = 0 then
        .assertFail
      else if ns.state = .nonPrimaryDemoted ∧
              ns.primary_mirror_uuid = local_mirror_uuid ∧
              ns.primary_snap_id = lst.local_snap_id_start then
        .next { st with remote_snap_id_start := remote_snap_id }
      else if st.remote_snap_id_start = 0 then
        .next st
      else
        remote_accept peer remote_snap_id ns st
    else
      .assertFail
  else
    remote_accept peer remote_snap_id ns st

/-- One iteration of the remote loop over a mirror snapshot
(Replayer.cc:341-412): an unclassifiable namespace is terminal
`-EINVAL`; otherwise `remote_demoted` is assigned from this snapshot and
the skip/accept logic runs. -/
def scan_remote_step (lst : LocalScan)
    (local_mirror_uuid remote_mirror_uuid peer : String)
    (remote_snap_id : Nat) (ns : MirrorSnapshotNamespace)
    (st : RemoteScan) : StepResult :=
  if ¬ ns.is_primary ∧ ¬ ns.is_non_primary then
    .term (-22) "invalid remote mirror snapshot state"
  else
    scan_remote_skip lst local_mirror_uuid remote_mirror_uuid peer
      remote_snap_id ns
      { st with remote_demoted := ns.is_primary && ns.is_demoted }

/-- Result of the remote snapshot-map loop. -/
inductive RemoteLoopResult where
  | replayComplete (code : Int) (desc : String)
  | assertFail
  | done (st : RemoteScan)
deriving DecidableEq, Repr

/-- The remote snapshot-map loop (Replayer.cc:332-413): snapshots without
mirror metadata are skipped; the loop ends at the first accepted
snapshot (break) or at the end of the map. -/
def scan_remote_loop (lst : LocalScan)
    (local_mirror_uuid remote_mirror_uuid peer : String) :
    SnapList → RemoteScan → RemoteLoopResult
  | [], st => .done st
  | (_, none) :: rest, st =>
    scan_remote_loop lst local_mirror_uuid remote_mirror_uuid peer rest st
  | (remote_snap_id, some ns) :: rest, st =>
    match scan_remote_step lst local_mirror_uuid remote_mirror_uuid peer
        remote_snap_id ns st with
    | .term c d => .replayComplete c d
    | .assertFail => .assertFail
    | .next st => scan_remote_loop lst local_mirror_uuid remote_mirror_uuid peer rest st
    | .brk st => .done st

/-- The planner's verdict after the two-phase scan. -/
inductive Verdict where
  | copySnapshots
  | copyImageResume
  | restartScan
  | interrupted
  | replayComplete (code : Int) (desc : String)
  | idle
  | assertFail
deriving DecidableEq, Repr

/-- The post-scan verdict logic (Replayer.cc:416-467): a found, complete
remote end snapshot dispatches the resume path (incomplete local
baseline) or the full sequence; otherwise a pending update notification
restarts the scan, a `Complete` lifecycle state resumes shutdown,
an observed remote demotion is the terminal success
"remote image demoted", and otherwise the replayer idles
(`ceph_assert(m_state == STATE_REPLAYING)`). -/
def scan_remote_post (lst : LocalScan) (st : RemoteScan)
    (updated : Bool) (rstate : RState) : Verdict :=
  if st.remote_snap_id_end ≠ CEPH_NOSNAP ∧ st.remote_mirror_snap_ns.complete then
    if lst.local_snap_id_end ≠ CEPH_NOSNAP ∧ ¬ lst.local_mirror_snap_ns.complete then
      .copyImageResume
    else
      .copySnapshots
  else if updated then
    .restartScan
  else if rstate = .complete then
    .interrupted
  else if st.remote_demoted then
    .replayComplete 0 "remote image demoted"
  else if rstate = .replaying then
    .idle
  else
    .assertFail

/-- A full planner pass: verdict plus the planner fields it computed. -/
structure PlannerOut where
  verdict : Verdict
  lst : LocalScan
  rst : RemoteScan
deriving DecidableEq, Repr

/-- One full planner pass (`scan_local_mirror_snapshots` followed by
`scan_remote_mirror_snapshots`).  `pre_updated` is the value of
`m_remote_image_updated` before the remote scan — it is cleared under
the mutex at the start of the remote scan (Replayer.cc:323-327) and
therefore never consulted; `notified_during_scan` is its value set by
notifications arriving after that clear, consulted by the post-scan
logic (Replayer.cc:440).  `rstate` is the lifecycle state observed at
the scan's checkpoints. -/
def plan (local_snaps remote_snaps : SnapList)
    (local_mirror_uuid remote_mirror_uuid peer : String)
    (pre_updated notified_during_scan : Bool) (rstate : RState) : PlannerOut :=
  if rstate = .complete then
    ⟨.interrupted, ⟨0, CEPH_NOSNAP, {}⟩, ⟨0, CEPH_NOSNAP, {}, false⟩⟩
  else
    match scan_local local_snaps remote_mirror_uuid with
    | .replayComplete c d =>
      ⟨.replayComplete c d, ⟨0, CEPH_NOSNAP, {}⟩, ⟨0, CEPH_NOSNAP, {}, false⟩⟩
    | .ok lst seed =>
      match scan_remote_loop lst local_mirror_uuid remote_mirror_uuid peer
          remote_snaps ⟨seed, CEPH_NOSNAP, {}, false⟩ with
      | .replayComplete c d => ⟨.replayComplete c d, lst, ⟨seed, CEPH_NOSNAP, {}, false⟩⟩
      | .assertFail => ⟨.assertFail, lst, ⟨seed, CEPH_NOSNAP, {}, false⟩⟩
      | .done rst => ⟨scan_remote_post lst rst notified_during_scan rstate, lst, rst⟩

/-- The last mirror namespace of a snapshot map (what
`m_local_mirror_snap_ns` holds after an error-free local loop). -/
def lastMirrorNs : SnapList → Option MirrorSnapshotNamespace
  | [] => none
  | (_, none) :: rest => lastMirrorNs rest
  | (_, some ns) :: rest => some ((lastMirrorNs rest).getD ns)

/-- The `remote_demoted` fold over a remote snapshot map: assigned anew
at every mirror snapshot (Replayer.cc:348). -/
def lastDemotedObs : SnapList → Bool → Bool
  | [], d => d
  | (_, none) :: rest, d => lastDemotedObs rest d
  | (_, some ns) :: rest, _ => lastDemotedObs rest (ns.is_primary && ns.is_demoted)

/-! ## SyncExecutor: the sync pipeline (`copy_snapshots` … `unlink_peer`,
Replayer.cc:469-705) -/

/-- The one-shot asynchronous requests the executor dispatches, with the
arguments the replayer passes them. -/
inductive Request where
  | snapshotCopy (remote_snap_id_start remote_snap_id_end local_snap_id_start : Nat)
  | getImageState (remote_snap_id_end : Nat)
  | createNonPrimary (demoted : Bool) (primary_mirror_uuid : String)
      (primary_snap_id : Nat) (snap_seqs : List (Nat × Nat))
  | imageCopy (remote_snap_id_start remote_snap_id_end local_snap_id_start : Nat)
      (resume_object : Option Nat) (snap_seqs : List (Nat × Nat))
  | setCopyProgress (local_snap_id : Nat) (complete : Bool)
      (last_copied_object_number : Nat)
  | notifyUpdate
  | unlinkPeer (remote_snap_id : Nat) (peer : String)
deriving DecidableEq, Repr

def Request.isSnapshotCopy : Request → Bool
  | .snapshotCopy .. => true
  | _ => false

def Request.isCreateNonPrimary : Request → Bool
  | .createNonPrimary .. => true
  | _ => false

def Request.isImageCopy : Request → Bool
  | .imageCopy .. => true
  | _ => false

def Request.isUnlinkPeer : Request → Bool
  | .unlinkPeer .. => true
  | _ => false

/-- How one plan execution ends: re-enter the planner at
`refresh_local_image`, resume a pending shutdown, a
`handle_replay_complete` terminal, or a `ceph_assert` failure. -/
inductive ExecOutcome where
  | reenterPlanner
  | interrupted
  | replayComplete (code : Int) (desc : String)
  | assertFail
deriving DecidableEq, Repr

/-- The environment of one plan execution: the completion code of each
asynchronous request, the `snap_seqs` written back by `SnapshotCopy`,
the local snap id written back by `CreateNonPrimary`, and whether the
`is_replay_interrupted` checkpoint after `notify_image_update`
(Replayer.cc:657) observes `Complete`. -/
structure ExecEnv where
  copy_snapshots_r : Int
  snap_copy_seqs : List (Nat × Nat)
  get_image_state_r : Int
  create_r : Int
  created_local_snap_id : Nat
  copy_image_r : Int
  update_r : Int
  notify_r : Int
  interrupted_after_notify : Bool
  unlink_r : Int
deriving DecidableEq, Repr

/-- The replayer fields the executor reads and writes. -/
structure ExecState where
  remote_snap_id_start : Nat
  remote_snap_id_end : Nat
  local_snap_id_start : Nat
  local_snap_id_end : Nat
  local_mirror_snap_ns : MirrorSnapshotNamespace
  remote_mirror_snap_ns : MirrorSnapshotNamespace
deriving DecidableEq, Repr

/-- The executor entry state carried out of a planner pass. -/
def execStateOf (po : PlannerOut) : ExecState :=
  ⟨po.rst.remote_snap_id_start, po.rst.remote_snap_id_end,
   po.lst.local_snap_id_start, po.lst.local_snap_id_end,
   po.lst.local_mirror_snap_ns, po.rst.remote_mirror_snap_ns⟩

/-- Models `unlink_peer` / `handle_unlink_peer` (Replayer.cc:664-705): skipped
when `m_remote_snap_id_start == 0`; otherwise one `UnlinkPeer` request;
`-ENOENT` is swallowed and any other error is terminal; on success or
tolerated failure the planner is re-entered at `refresh_local_image`. -/
def exec_unlink_peer (peer : String) (s : ExecState) (env : ExecEnv) :
    List Request × ExecOutcome :=
  if s.remote_snap_id_start = 0 then
    ([], .reenterPlanner)
  else if env.unlink_r < 0 ∧ env.unlink_r ≠ -2 then
    ([.unlinkPeer s.remote_snap_id_start peer],
     .replayComplete env.unlink_r "failed to unlink local peer from remote image")
  else
    ([.unlinkPeer s.remote_snap_id_start peer], .reenterPlanner)

/-- Models `notify_image_update` / `handle_notify_image_update`
(Replayer.cc:640-662): a notify error is only logged; the
`is_replay_interrupted` checkpoint may divert to teardown, otherwise
`unlink_peer` follows. -/
def exec_notify_image_update (peer : String) (s : ExecState) (env : ExecEnv) :
    List Request × ExecOutcome :=
  if env.interrupted_after_notify then
    ([.notifyUpdate], .interrupted)
  else
    (.notifyUpdate :: (exec_unlink_peer peer s env).1,
     (exec_unlink_peer peer s env).2)

/-- Models `update_non_primary_snapshot(true)` /
`handle_update_non_primary_snapshot` (Replayer.cc:603-638): marks the
namespace complete and writes `(local_snap_id_end, complete,
last_copied_object_number)` through the object-class op; failure is
terminal, success proceeds to `notify_image_update`. -/
def exec_update_non_primary_snapshot (peer : String) (s : ExecState) (env : ExecEnv) :
    List Request × ExecOutcome :=
  if env.update_r < 0 then
    ([.setCopyProgress s.local_snap_id_end true
        s.local_mirror_snap_ns.last_copied_object_number],
     .replayComplete env.update_r "failed to update local snapshot progress")
  else
    (.setCopyProgress s.local_snap_id_end true
        s.local_mirror_snap_ns.last_copied_object_number ::
      (exec_notify_image_update peer
        { s with local_mirror_snap_ns.complete := true } env).1,
     (exec_notify_image_update peer
        { s with local_mirror_snap_ns.complete := true } env).2)

/-- Models `copy_image` / `handle_copy_image` (Replayer.cc:561-594): one
`ImageCopy` request with a resume object only when the namespace's
progress cursor is positive, and the namespace's `snap_seqs`; failure is
terminal, success proceeds to the completion write. -/
def exec_copy_image (peer : String) (s : ExecState) (env : ExecEnv) :
    List Request × ExecOutcome :=
  if env.copy_image_r < 0 then
    ([.imageCopy s.remote_snap_id_start s.remote_snap_id_end s.local_snap_id_start
        (if 0 < s.local_mirror_snap_ns.last_copied_object_number then
           some s.local_mirror_snap_ns.last_copied_object_number
         else none)
        s.local_mirror_snap_ns.snap_seqs],
     .replayComplete env.copy_image_r "failed to copy remote image")
  else
    (.imageCopy s.remote_snap_id_start s.remote_snap_id_end s.local_snap_id_start
        (if 0 < s.local_mirror_snap_ns.last_copied_object_number then
           some s.local_mirror_snap_ns.last_copied_object_number
         else none)
        s.local_mirror_snap_ns.snap_seqs ::
      (exec_update_non_primary_snapshot peer s env).1,
     (exec_update_non_primary_snapshot peer s env).2)

/-- Models `create_non_primary_snapshot` / `handle_create_non_primary_snapshot`
(Replayer.cc:534-559): one `CreateNonPrimary` request carrying the remote
end snapshot's demotion flag, the remote mirror uuid, the remote end
snap id and the namespace's `snap_seqs`; it writes back
`m_local_snap_id_end`.  Failure is terminal, success proceeds to
`copy_image`. -/
def exec_create_non_primary_snapshot (remote_mirror_uuid peer : String)
    (s : ExecState) (env : ExecEnv) : List Request × ExecOutcome :=
  if env.create_r < 0 then
    ([.createNonPrimary s.remote_mirror_snap_ns.is_demoted remote_mirror_uuid
        s.remote_snap_id_end s.local_mirror_snap_ns.snap_seqs],
     .replayComplete env.create_r "failed to create local mirror snapshot")
  else
    (.createNonPrimary s.remote_mirror_snap_ns.is_demoted remote_mirror_uuid
        s.remote_snap_id_end s.local_mirror_snap_ns.snap_seqs ::
      (exec_copy_image peer
        { s with local_snap_id_end := env.created_local_snap_id } env).1,
     (exec_copy_image peer
        { s with local_snap_id_end := env.created_local_snap_id } env).2)

/-- Models `get_image_state` / `handle_get_image_state` (Replayer.cc:508-532):
one `GetImageState` request for the remote end snapshot; failure is
terminal, success proceeds to `create_non_primary_snapshot`. -/
def exec_get_image_state (remote_mirror_uuid peer : String)
    (s : ExecState) (env : ExecEnv) : List Request × ExecOutcome :=
  if env.get_image_state_r < 0 then
    ([.getImageState s.remote_snap_id_end],
     .replayComplete env.get_image_state_r
       "failed to retrieve remote snapshot image state")
  else
    (.getImageState s.remote_snap_id_end ::
      (exec_create_non_primary_snapshot remote_mirror_uuid peer s env).1,
     (exec_create_non_primary_snapshot remote_mirror_uuid peer s env).2)

/-- Models `copy_snapshots` / `handle_copy_snapshots` (Replayer.cc:469-506):
asserts `m_remote_snap_id_start != CEPH_NOSNAP`,
`0 < m_remote_snap_id_end < CEPH_NOSNAP` and
`m_local_snap_id_start != CEPH_NOSNAP`, resets
`m_local_mirror_snap_ns` to its default value, and dispatches one
`SnapshotCopy` request; on success the request has written the fresh
`snap_seqs` into the reset namespace (so the state passed on holds the
default namespace with only `snap_seqs` filled in), and `get_image_state`
follows; failure is terminal. -/
def exec_copy_snapshots (remote_mirror_uuid peer : String)
    (s : ExecState) (env : ExecEnv) : List Request × ExecOutcome :=
  if s.remote_snap_id_start = CEPH_NOSNAP then
    ([], .assertFail)
  else if ¬ (0 < s.remote_snap_id_end ∧ s.remote_snap_id_end ≠ CEPH_NOSNAP) then
    ([], .assertFail)
  else if s.local_snap_id_start = CEPH_NOSNAP then
    ([], .assertFail)
  else if env.copy_snapshots_r < 0 then
    ([.snapshotCopy s.remote_snap_id_start s.remote_snap_id_end s.local_snap_id_start],
     .replayComplete env.copy_snapshots_r
       "failed to copy snapshots from remote to local image")
  else
    (.snapshotCopy s.remote_snap_id_start s.remote_snap_id_end s.local_snap_id_start ::
      (exec_get_image_state remote_mirror_uuid peer
        { s with local_mirror_snap_ns := { snap_seqs := env.snap_copy_seqs } } env).1,
     (exec_get_image_state remote_mirror_uuid peer
        { s with local_mirror_snap_ns := { snap_seqs := env.snap_copy_seqs } } env).2)

/-! ### Executor trace shape lemmas -/

theorem exec_unlink_peer_mem {peer : String} {s : ExecState} {env : ExecEnv}
    {r : Request} (h : r ∈ (exec_unlink_peer peer s env).1) :
    r = .unlinkPeer s.remote_snap_id_start peer := by
  unfold exec_unlink_peer at h
  split at h
  · simp at h
  · split at h <;> simpa using h

theorem exec_notify_image_update_mem {peer : String} {s : ExecState}
    {env : ExecEnv} {r : Request}
    (h : r ∈ (exec_notify_image_update peer s env).1) :
    r = .notifyUpdate ∨ r = .unlinkPeer s.remote_snap_id_start peer := by
  unfold exec_notify_image_update at h
  split at h
  · simp at h
    exact Or.inl h
  · simp only [List.mem_cons] at h
    rcases h with h | h
    · exact Or.inl h
    · exact Or.inr (exec_unlink_peer_mem h)

theorem exec_update_non_primary_snapshot_mem {peer : String} {s : ExecState}
    {env : ExecEnv} {r : Request}
    (h : r ∈ (exec_update_non_primary_snapshot peer s env).1) :
    (∃ a b c, r = .setCopyProgress a b c) ∨ r = .notifyUpdate ∨
      (∃ a b, r = .unlinkPeer a b) := by
  unfold exec_update_non_primary_snapshot at h
  split at h
  · simp at h
    exact Or.inl ⟨_, _, _, h⟩
  · simp only [List.mem_cons] at h
    rcases h with h | h
    · exact Or.inl ⟨_, _, _, h⟩
    · rcases exec_notify_image_update_mem h with h | h
      · exact Or.inr (Or.inl h)
      · exact Or.inr (Or.inr ⟨_, _, h⟩)

theorem exec_copy_image_mem {peer : String} {s : ExecState}
    {env : ExecEnv} {r : Request}
    (h : r ∈ (exec_copy_image peer s env).1) :
    r = .imageCopy s.remote_snap_id_start s.remote_snap_id_end
      s.local_snap_id_start
      (if 0 < s.local_mirror_snap_ns.last_copied_object_number then
         some s.local_mirror_snap_ns.last_copied_object_number
       else none)
      s.local_mirror_snap_ns.snap_seqs ∨
    (∃ a b c, r = .setCopyProgress a b c) ∨ r = .notifyUpdate ∨
      (∃ a b, r = .unlinkPeer a b) := by
  unfold exec_copy_image at h
  split at h
  · simp at h
    exact Or.inl h
  · simp only [List.mem_cons] at h
    rcases h with h | h
    · exact Or.inl h
    · exact Or.inr (exec_update_non_primary_snapshot_mem h)

theorem exec_copy_image_head {peer : String} {s : ExecState} {env : ExecEnv} :
    (exec_copy_image peer s env).1.head? =
      some (.imageCopy s.remote_snap_id_start s.remote_snap_id_end
        s.local_snap_id_start
        (if 0 < s.local_mirror_snap_ns.last_copied_object_number then
           some s.local_mirror_snap_ns.last_copied_object_number
         else none)
        s.local_mirror_snap_ns.snap_seqs) := by
  unfold exec_copy_image
  split <;> rfl

theorem exec_create_non_primary_snapshot_mem {ru peer : String} {s : ExecState}
    {env : ExecEnv} {r : Request}
    (h : r ∈ (exec_create_non_primary_snapshot ru peer s env).1) :
    (∃ a b c d, r = .createNonPrimary a b c d) ∨
    r = .imageCopy s.remote_snap_id_start s.remote_snap_id_end
      s.local_snap_id_start
      (if 0 < s.local_mirror_snap_ns.last_copied_object_number then
         some s.local_mirror_snap_ns.last_copied_object_number
       else none)
      s.local_mirror_snap_ns.snap_seqs ∨
    (∃ a b c, r = .setCopyProgress a b c) ∨ r = .notifyUpdate ∨
      (∃ a b, r = .unlinkPeer a b) := by
  unfold exec_create_non_primary_snapshot at h
  split at h
  · simp at h
    exact Or.inl ⟨_, _, _, _, h⟩
  · simp only [List.mem_cons] at h
    rcases h with h | h
    · exact Or.inl ⟨_, _, _, _, h⟩
    · exact Or.inr (exec_copy_image_mem
        (s := { s with local_snap_id_end := env.created_local_snap_id }) h)

theorem exec_get_image_state_mem {ru peer : String} {s : ExecState}
    {env : ExecEnv} {r : Request}
    (h : r ∈ (exec_get_image_state ru peer s env).1) :
    (∃ a, r = .getImageState a) ∨
    (∃ a b c d, r = .createNonPrimary a b c d) ∨
    r = .imageCopy s.remote_snap_id_start s.remote_snap_id_end
      s.local_snap_id_start
      (if 0 < s.local_mirror_snap_ns.last_copied_object_number then
         some s.local_mirror_snap_ns.last_copied_object_number
       else none)
      s.local_mirror_snap_ns.snap_seqs ∨
    (∃ a b c, r = .setCopyProgress a b c) ∨ r = .notifyUpdate ∨
      (∃ a b, r = .unlinkPeer a b) := by
  unfold exec_get_image_state at h
  split at h
  · simp at h
    exact Or.inl ⟨_, h⟩
  · simp only [List.mem_cons] at h
    rcases h with h | h
    · exact Or.inl ⟨_, h⟩
    · exact Or.inr (exec_create_non_primary_snapshot_mem h)

theorem exec_unlink_peer_no_assert {peer : String} {s : ExecState}
    {env : ExecEnv} : (exec_unlink_peer peer s env).2 ≠ .assertFail := by
  unfold exec_unlink_peer
  split
  · simp
  · split <;> simp

theorem exec_notify_image_update_no_assert {peer : String} {s : ExecState}
    {env : ExecEnv} : (exec_notify_image_update peer s env).2 ≠ .assertFail := by
  unfold exec_notify_image_update
  split
  · simp
  · exact exec_unlink_peer_no_assert

theorem exec_update_non_primary_snapshot_no_assert {peer : String}
    {s : ExecState} {env : ExecEnv} :
    (exec_update_non_primary_snapshot peer s env).2 ≠ .assertFail := by
  unfold exec_update_non_primary_snapshot
  split
  · simp
  · exact exec_notify_image_update_no_assert

theorem exec_copy_image_no_assert {peer : String} {s : ExecState}
    {env : ExecEnv} : (exec_copy_image peer s env).2 ≠ .assertFail := by
  unfold exec_copy_image
  split
  · simp
  · exact exec_update_non_primary_snapshot_no_assert

theorem exec_create_non_primary_snapshot_no_assert {ru peer : String}
    {s : ExecState} {env : ExecEnv} :
    (exec_create_non_primary_snapshot ru peer s env).2 ≠ .assertFail := by
  unfold exec_create_non_primary_snapshot
  split
  · simp
  · exact exec_copy_image_no_assert

theorem exec_get_image_state_no_assert {ru peer : String} {s : ExecState}
    {env : ExecEnv} : (exec_get_image_state ru peer s env).2 ≠ .assertFail := by
  unfold exec_get_image_state
  split
  · simp
  · exact exec_create_non_primary_snapshot_no_assert

/-! ### Remote-scan loop characterization lemmas -/

theorem remote_accept_next {peer : String} {remote_snap_id : Nat}
    {ns : MirrorSnapshotNamespace} {st st' : RemoteScan}
    (h : remote_accept peer remote_snap_id ns st = .next st') : st' = st := by
  unfold remote_accept at h
  split at h <;> try split at h
  all_goals simp_all

theorem remote_accept_brk {peer : String} {remote_snap_id : Nat}
    {ns : MirrorSnapshotNamespace} {st st' : RemoteScan}
    (h : remote_accept peer remote_snap_id ns st = .brk st') :
    st' = { st with remote_snap_id_end := remote_snap_id,
                    remote_mirror_snap_ns := ns } := by
  unfold remote_accept at h
  split at h <;> try split at h
  all_goals simp_all

theorem scan_remote_skip_next {lst : LocalScan} {lu ru peer : String}
    {remote_snap_id : Nat} {ns : MirrorSnapshotNamespace} {st st' : RemoteScan}
    (h : scan_remote_skip lst lu ru peer remote_snap_id ns st = .next st') :
    st' = st ∨ st' = { st with remote_snap_id_start := remote_snap_id } := by
  unfold scan_remote_skip at h
  split_ifs at h
  all_goals first
    | exact Or.inl (remote_accept_next h)
    | (cases h; exact Or.inl rfl)
    | (cases h; exact Or.inr rfl)
    | cases h

theorem scan_remote_skip_brk {lst : LocalScan} {lu ru peer : String}
    {remote_snap_id : Nat} {ns : MirrorSnapshotNamespace} {st st' : RemoteScan}
    (h : scan_remote_skip lst lu ru peer remote_snap_id ns st = .brk st') :
    st' = { st with remote_snap_id_end := remote_snap_id,
                    remote_mirror_snap_ns := ns } := by
  unfold scan_remote_skip at h
  split_ifs at h
  all_goals first
    | exact remote_accept_brk h
    | cases h

theorem scan_remote_step_next {lst : LocalScan} {lu ru peer : String}
    {remote_snap_id : Nat} {ns : MirrorSnapshotNamespace} {st st' : RemoteScan}
    (h : scan_remote_step lst lu ru peer remote_snap_id ns st = .next st') :
    st' = { st with remote_demoted := ns.is_primary && ns.is_demoted } ∨
    st' = { st with remote_demoted := ns.is_primary && ns.is_demoted,
                    remote_snap_id_start := remote_snap_id } := by
  unfold scan_remote_step at h
  split at h
  · exact absurd h (by simp)
  · exact scan_remote_skip_next h

theorem scan_remote_step_brk {lst : LocalScan} {lu ru peer : String}
    {remote_snap_id : Nat} {ns : MirrorSnapshotNamespace} {st st' : RemoteScan}
    (h : scan_remote_step lst lu ru peer remote_snap_id ns st = .brk st') :
    st' = { st with remote_demoted := ns.is_primary && ns.is_demoted,
                    remote_snap_id_end := remote_snap_id,
                    remote_mirror_snap_ns := ns } := by
  unfold scan_remote_step at h
  split at h
  · exact absurd h (by simp)
  · exact scan_remote_skip_brk h

/-- Invariant of the remote loop: `remote_snap_id_start` stays below
`CEPH_NOSNAP` and `remote_snap_id_end` is either still `CEPH_NOSNAP` or
an accepted snap id in `(0, CEPH_NOSNAP)`, provided all snap ids are. -/
theorem scan_remote_loop_bounds (lst : LocalScan) (lu ru peer : String) :
    ∀ (L : SnapList) (st st' : RemoteScan),
      (∀ e ∈ L, 0 < e.1 ∧ e.1 < CEPH_NOSNAP) →
      st.remote_snap_id_start < CEPH_NOSNAP →
      (st.remote_snap_id_end = CEPH_NOSNAP ∨
        (0 < st.remote_snap_id_end ∧ st.remote_snap_id_end < CEPH_NOSNAP)) →
      scan_remote_loop lst lu ru peer L st = .done st' →
      st'.remote_snap_id_start < CEPH_NOSNAP ∧
      (st'.remote_snap_id_end = CEPH_NOSNAP ∨
        (0 < st'.remote_snap_id_end ∧ st'.remote_snap_id_end < CEPH_NOSNAP)) := by
  intro L
  induction L with
  | nil =>
    intro st st' _ hs he hdone
    simp only [scan_remote_loop, RemoteLoopResult.done.injEq] at hdone
    subst hdone
    exact ⟨hs, he⟩
  | cons e rest ih =>
    intro st st' hL hs he hdone
    obtain ⟨remote_snap_id, ons⟩ := e
    have hid := hL (remote_snap_id, ons) (List.mem_cons_self _ _)
    have hrest : ∀ e ∈ rest, 0 < e.1 ∧ e.1 < CEPH_NOSNAP :=
      fun e hmem => hL e (List.mem_cons_of_mem _ hmem)
    cases ons with
    | none =>
      simp only [scan_remote_loop] at hdone
      exact ih st st' hrest hs he hdone
    | some ns =>
      simp only [scan_remote_loop] at hdone
      cases hstep : scan_remote_step lst lu ru peer remote_snap_id ns st with
      | term c d => simp only [hstep] at hdone; simp at hdone
      | assertFail => simp only [hstep] at hdone; simp at hdone
      | next st2 =>
        simp only [hstep] at hdone
        rcases scan_remote_step_next hstep with h2 | h2 <;> subst h2
        · exact ih { st with remote_demoted := ns.is_primary && ns.is_demoted }
            st' hrest hs he hdone
        · exact ih { st with remote_demoted := ns.is_primary && ns.is_demoted,
                             remote_snap_id_start := remote_snap_id }
            st' hrest hid.2 he hdone
      | brk st2 =>
        simp only [hstep] at hdone
        simp only [RemoteLoopResult.done.injEq] at hdone
        subst hdone
        have h2 := scan_remote_step_brk hstep
        subst h2
        exact ⟨hs, Or.inr ⟨hid.1, hid.2⟩⟩

/-- The `remote_demoted` latch after a full (break-free) traversal is
the `lastDemotedObs` fold over the list. -/
theorem scan_remote_loop_demoted (lst : LocalScan) (lu ru peer : String) :
    ∀ (L : SnapList) (st st' : RemoteScan),
      (∀ e ∈ L, e.1 < CEPH_NOSNAP) →
      st.remote_snap_id_end = CEPH_NOSNAP →
      scan_remote_loop lst lu ru peer L st = .done st' →
      st'.remote_snap_id_end = CEPH_NOSNAP →
      st'.remote_demoted = lastDemotedObs L st.remote_demoted := by
  intro L
  induction L with
  | nil =>
    intro st st' _ _ hdone _
    simp only [scan_remote_loop, RemoteLoopResult.done.injEq] at hdone
    subst hdone
    rfl
  | cons e rest ih =>
    intro st st' hL h0 hdone hend
    obtain ⟨remote_snap_id, ons⟩ := e
    have hid := hL (remote_snap_id, ons) (List.mem_cons_self _ _)
    have hrest : ∀ e ∈ rest, e.1 < CEPH_NOSNAP :=
      fun e hmem => hL e (List.mem_cons_of_mem _ hmem)
    cases ons with
    | none =>
      simp only [scan_remote_loop] at hdone
      exact ih st st' hrest h0 hdone hend
    | some ns =>
      simp only [scan_remote_loop] at hdone
      cases hstep : scan_remote_step lst lu ru peer remote_snap_id ns st with
      | term c d => simp only [hstep] at hdone; simp at hdone
      | assertFail => simp only [hstep] at hdone; simp at hdone
      | next st2 =>
        simp only [hstep] at hdone
        have hfold : lastDemotedObs ((remote_snap_id, some ns) :: rest)
            st.remote_demoted =
            lastDemotedObs rest (ns.is_primary && ns.is_demoted) := rfl
        rw [hfold]
        rcases scan_remote_step_next hstep with h2 | h2 <;> subst h2
        · exact ih { st with remote_demoted := ns.is_primary && ns.is_demoted }
            st' hrest h0 hdone hend
        · exact ih { st with remote_demoted := ns.is_primary && ns.is_demoted,
                             remote_snap_id_start := remote_snap_id }
            st' hrest h0 hdone hend
      | brk st2 =>
        simp only [hstep] at hdone
        simp only [RemoteLoopResult.done.injEq] at hdone
        subst hdone
        have h2 := scan_remote_step_brk hstep
        subst h2
        simp only at hend
        omega

/-- C7: during the remote scan `remote_demoted` is assigned anew at every
valid mirror snapshot — the value surviving a break-free scan is the
`lastDemotedObs` fold (the latest observation, not a sticky or-latch) —
and a scan ending with it set, no accepted end snapshot and no pending
update notification terminates with the success
`(0, "remote image demoted")`. -/
theorem C7_remote_demoted (lst : LocalScan) (lu ru peer : String)
    (L : SnapList) (st st' : RemoteScan) (upd : Bool)
    (hL : ∀ e ∈ L, e.1 < CEPH_NOSNAP)
    (h0 : st.remote_snap_id_end = CEPH_NOSNAP)
    (hdone : scan_remote_loop lst lu ru peer L st = .done st')
    (hend : st'.remote_snap_id_end = CEPH_NOSNAP) :
    st'.remote_demoted = lastDemotedObs L st.remote_demoted ∧
    (st'.remote_demoted = true → upd = false →
      scan_remote_post lst st' upd .replaying =
        .replayComplete 0 "remote image demoted") := by
  constructor
  · exact scan_remote_loop_demoted lst lu ru peer L st st' hL h0 hdone hend
  · intro hdem hupd
    subst hupd
    unfold scan_remote_post
    rw [if_neg (by simp [hend])]
    simp [hdem]

/-- C7 witness: a remote list whose only mirror snapshot is a demoted
primary latches `remote_demoted` and terminates with
"remote image demoted". -/
theorem C7_remote_demoted_witness :
    (⟨0, CEPH_NOSNAP, {}, true⟩ : RemoteScan).remote_demoted =
      lastDemotedObs [(10, some { state := .primaryDemoted, complete := true })]
        false ∧
    scan_remote_post ⟨0, CEPH_NOSNAP, {}⟩ ⟨0, CEPH_NOSNAP, {}, true⟩ false
      .replaying = .replayComplete 0 "remote image demoted" :=
  ⟨(C7_remote_demoted ⟨0, CEPH_NOSNAP, {}⟩ "L" "R" "P"
      [(10, some { state := .primaryDemoted, complete := true })]
      ⟨0, CEPH_NOSNAP, {}, false⟩ ⟨0, CEPH_NOSNAP, {}, true⟩ false
      (by decide) rfl (by decide) rfl).1,
   (C7_remote_demoted ⟨0, CEPH_NOSNAP, {}⟩ "L" "R" "P"
      [(10, some { state := .primaryDemoted, complete := true })]
      ⟨0, CEPH_NOSNAP, {}, false⟩ ⟨0, CEPH_NOSNAP, {}, true⟩ false
      (by decide) rfl (by decide) rfl).2 rfl rfl⟩

/-- C8: the `remote_image_updated` value from before the scan is
discarded (the flag is cleared under the mutex before the remote scan
begins, so only notifications arriving during the scan count), and a
scan that would otherwise go `Idle` instead restarts from local-refresh
when a notification arrived during it. -/
theorem C8_notification_restart (lsnaps rsnaps : SnapList)
    (lu ru peer : String) (pre pre' : Bool) (rstate : RState)
    (h : (plan lsnaps rsnaps lu ru peer pre false rstate).verdict = .idle) :
    (plan lsnaps rsnaps lu ru peer pre' true rstate).verdict = .restartScan := by
  unfold plan at h ⊢
  by_cases hc : rstate = .complete
  · rw [if_pos hc] at h
    simp at h
  · rw [if_neg hc] at h ⊢
    cases hsl : scan_local lsnaps ru with
    | replayComplete c d =>
      simp only [hsl] at h
      simp at h
    | ok lst seed =>
      simp only [hsl] at h ⊢
      cases hloop : scan_remote_loop lst lu ru peer rsnaps
          ⟨seed, CEPH_NOSNAP, {}, false⟩ with
      | replayComplete c d =>
        simp only [hloop] at h
        simp at h
      | assertFail =>
        simp only [hloop] at h
        simp at h
      | done rst =>
        simp only [hloop] at h ⊢
        unfold scan_remote_post at h ⊢
        split at h
        · split at h <;> simp at h
        · next hcond =>
            rw [if_neg hcond]
            simp

/-- C8 witness: with empty snapshot maps, the no-notification scan goes
`Idle` and the during-scan-notification scan restarts. -/
theorem C8_notification_restart_witness :
    (plan [] [] "L" "R" "P" true true .replaying).verdict = .restartScan :=
  C8_notification_restart [] [] "L" "R" "P" false true .replaying (by decide)

/-! ### Local-scan loop characterization lemmas -/

theorem not_non_primary_of_primary {ns : MirrorSnapshotNamespace}
    (h : ns.is_primary = true) : ns.is_non_primary = false := by
  unfold MirrorSnapshotNamespace.is_primary
    MirrorSnapshotNamespace.is_non_primary at *
  cases hs : ns.state <;> simp [hs] at h ⊢

/-- An error-free local loop over classification-clean snapshots: it
returns `ok`, records the last mirror namespace, and establishes the
baseline-present condition whenever a mirror snapshot exists. -/
theorem scan_local_loop_total (snaps : SnapList) :
    ∀ st : LocalScan,
      (∀ e ∈ snaps, ∀ ns, e.2 = some ns →
        ns.is_non_primary = true ∨ (ns.is_primary = true ∧ ns.complete = true)) →
      (∀ e ∈ snaps, 0 < e.1 ∧ e.1 < CEPH_NOSNAP) →
      ∃ st', scan_local_loop snaps st = .ok st' ∧
        st'.local_mirror_snap_ns =
          (lastMirrorNs snaps).getD st.local_mirror_snap_ns ∧
        (((0 < st.local_snap_id_start ∨ st.local_snap_id_end ≠ CEPH_NOSNAP) ∨
            lastMirrorNs snaps ≠ none) →
          (0 < st'.local_snap_id_start ∨ st'.local_snap_id_end ≠ CEPH_NOSNAP)) := by
  induction snaps with
  | nil =>
    intro st _ _
    exact ⟨st, rfl, rfl, fun h => h.resolve_right (fun hn => hn rfl)⟩
  | cons e rest ih =>
    intro st hok hpos
    obtain ⟨snap_id, ons⟩ := e
    have hpos_head := hpos (snap_id, ons) (List.mem_cons_self _ _)
    have hok_rest : ∀ e ∈ rest, ∀ ns, e.2 = some ns →
        ns.is_non_primary = true ∨ (ns.is_primary = true ∧ ns.complete = true) :=
      fun e he ns hns => hok e (List.mem_cons_of_mem _ he) ns hns
    have hpos_rest : ∀ e ∈ rest, 0 < e.1 ∧ e.1 < CEPH_NOSNAP :=
      fun e he => hpos e (List.mem_cons_of_mem _ he)
    cases ons with
    | none =>
      obtain ⟨st', heq, hlns, hinv⟩ := ih st hok_rest hpos_rest
      refine ⟨st', ?_, ?_, ?_⟩
      · simpa [scan_local_loop] using heq
      · simpa [lastMirrorNs] using hlns
      · intro hcase
        apply hinv
        simpa [lastMirrorNs] using hcase
    | some ns =>
      rcases hok (snap_id, some ns) (List.mem_cons_self _ _) ns rfl with
        hnp | ⟨hp, hcompl⟩
      · by_cases hcom : ns.complete = true
        · obtain ⟨st', heq, hlns, hinv⟩ :=
            ih ⟨snap_id, CEPH_NOSNAP, ns⟩ hok_rest hpos_rest
          refine ⟨st', ?_, ?_, ?_⟩
          · simpa [scan_local_loop, hnp, hcom] using heq
          · simpa [lastMirrorNs] using hlns
          · intro _
            exact hinv (Or.inl (Or.inl hpos_head.1))
        · obtain ⟨st', heq, hlns, hinv⟩ :=
            ih ⟨st.local_snap_id_start, snap_id, ns⟩ hok_rest hpos_rest
          refine ⟨st', ?_, ?_, ?_⟩
          · simpa [scan_local_loop, hnp, hcom] using heq
          · simpa [lastMirrorNs] using hlns
          · intro _
            exact hinv (Or.inl (Or.inr (Nat.ne_of_lt hpos_head.2)))
      · obtain ⟨st', heq, hlns, hinv⟩ :=
          ih ⟨snap_id, CEPH_NOSNAP, ns⟩ hok_rest hpos_rest
        refine ⟨st', ?_, ?_, ?_⟩
        · simpa [scan_local_loop, not_non_primary_of_primary hp, hp, hcompl]
            using heq
        · simpa [lastMirrorNs] using hlns
        · intro _
          exact hinv (Or.inl (Or.inl hpos_head.1))

/-- The field `local_snap_id_start` only ever holds its initial value or a snap id
from the list, so it stays below `CEPH_NOSNAP`. -/
theorem scan_local_loop_start_lt (snaps : SnapList) :
    ∀ st st' : LocalScan,
      (∀ e ∈ snaps, e.1 < CEPH_NOSNAP) →
      st.local_snap_id_start < CEPH_NOSNAP →
      scan_local_loop snaps st = .ok st' →
      st'.local_snap_id_start < CEPH_NOSNAP := by
  induction snaps with
  | nil =>
    intro st st' _ hs heq
    simp only [scan_local_loop, Except.ok.injEq] at heq
    subst heq
    exact hs
  | cons e rest ih =>
    intro st st' hpos hs heq
    obtain ⟨snap_id, ons⟩ := e
    have hid := hpos (snap_id, ons) (List.mem_cons_self _ _)
    have hrest : ∀ e ∈ rest, e.1 < CEPH_NOSNAP :=
      fun e he => hpos e (List.mem_cons_of_mem _ he)
    cases ons with
    | none =>
      simp only [scan_local_loop] at heq
      exact ih st st' hrest hs heq
    | some ns =>
      simp only [scan_local_loop] at heq
      split at heq
      · split at heq
        · exact ih ⟨snap_id, CEPH_NOSNAP, ns⟩ st' hrest hid heq
        · exact ih ⟨st.local_snap_id_start, snap_id, ns⟩ st' hrest hs heq
      · split at heq
        · split at heq
          · exact ih ⟨snap_id, CEPH_NOSNAP, ns⟩ st' hrest hid heq
          · simp at heq
        · simp at heq

/-- The namespace recorded by the loop is either the initial one (state
unchanged) or one occurring in the list. -/
theorem scan_local_loop_lns_mem (snaps : SnapList) :
    ∀ st st' : LocalScan,
      scan_local_loop snaps st = .ok st' →
      st' = st ∨ ∃ e ∈ snaps, e.2 = some st'.local_mirror_snap_ns := by
  induction snaps with
  | nil =>
    intro st st' heq
    simp only [scan_local_loop, Except.ok.injEq] at heq
    exact Or.inl heq.symm
  | cons e rest ih =>
    intro st st' heq
    obtain ⟨snap_id, ons⟩ := e
    cases ons with
    | none =>
      simp only [scan_local_loop] at heq
      rcases ih st st' heq with h | ⟨e, he, hns⟩
      · exact Or.inl h
      · exact Or.inr ⟨e, List.mem_cons_of_mem _ he, hns⟩
    | some ns =>
      simp only [scan_local_loop] at heq
      have step : ∀ st1 : LocalScan, st1.local_mirror_snap_ns = ns →
          scan_local_loop rest st1 = .ok st' →
          st' = st ∨ ∃ e ∈ (snap_id, some ns) :: rest,
            e.2 = some st'.local_mirror_snap_ns := by
        intro st1 hst1 heq1
        rcases ih st1 st' heq1 with h | ⟨e, he, hns'⟩
        · exact Or.inr ⟨(snap_id, some ns), List.mem_cons_self _ _,
            by rw [h, hst1]⟩
        · exact Or.inr ⟨e, List.mem_cons_of_mem _ he, hns'⟩
      split at heq
      · split at heq
        · exact step _ rfl heq
        · exact step _ rfl heq
      · split at heq
        · split at heq
          · exact step _ rfl heq
          · simp at heq
        · simp at heq

/-- The seed `m_remote_snap_id_start` produced by the local scan and the
final `m_local_snap_id_start` both stay below `CEPH_NOSNAP`, given snap
ids below `CEPH_NOSNAP` and namespaces whose `primary_snap_id` is below
`CEPH_NOSNAP`. -/
theorem scan_local_seed_bounds (snaps : SnapList) (ru : String)
    (lst : LocalScan) (seed : Nat)
    (hpos : ∀ e ∈ snaps, e.1 < CEPH_NOSNAP)
    (hpsid : ∀ e ∈ snaps, ∀ ns, e.2 = some ns →
      ns.primary_snap_id < CEPH_NOSNAP)
    (hok : scan_local snaps ru = .ok lst seed) :
    seed < CEPH_NOSNAP ∧ lst.local_snap_id_start < CEPH_NOSNAP := by
  unfold scan_local at hok
  cases heq : scan_local_loop snaps ⟨0, CEPH_NOSNAP, {}⟩ with
  | error e =>
    obtain ⟨c, d⟩ := e
    simp only [heq] at hok
    simp at hok
  | ok st' =>
    simp only [heq] at hok
    have hstart : st'.local_snap_id_start < CEPH_NOSNAP :=
      scan_local_loop_start_lt snaps ⟨0, CEPH_NOSNAP, {}⟩ st' hpos
        (show (0 : Nat) < CEPH_NOSNAP by unfold CEPH_NOSNAP; omega) heq
    split at hok
    · next hbase =>
      split at hok
      · simp at hok
      · split at hok
        · simp at hok
        · simp only [Except.ok.injEq, LocalScanResult.ok.injEq] at hok
          obtain ⟨h1, h2⟩ := hok
          subst h1
          subst h2
          refine ⟨?_, hstart⟩
          split
          · next hcom =>
            rcases scan_local_loop_lns_mem snaps _ st' heq with h | ⟨e, he, hns⟩
            · rw [h] at hbase
              simp at hbase
            · exact hpsid e he _ hns
          · unfold CEPH_NOSNAP; omega
    · simp only [LocalScanResult.ok.injEq] at hok
      obtain ⟨h1, h2⟩ := hok
      subst h1
      subst h2
      exact ⟨by unfold CEPH_NOSNAP; omega, hstart⟩

/-- A `copySnapshots` verdict requires a found, complete remote end
snapshot. -/
theorem scan_remote_post_copySnapshots {lst : LocalScan} {rst : RemoteScan}
    {upd : Bool} {rstate : RState}
    (h : scan_remote_post lst rst upd rstate = .copySnapshots) :
    rst.remote_snap_id_end ≠ CEPH_NOSNAP ∧
    rst.remote_mirror_snap_ns.complete = true := by
  unfold scan_remote_post at h
  split at h
  · next hc => exact hc
  · split_ifs at h <;> simp at h

/-- C1: the claimed first-writer-wins latch fails on the code: a first
call `handle_replay_complete(0, "first")` leaves `m_error_code == 0`, so
a second call `handle_replay_complete(-5, "second")` overwrites the
latched pair — the latch is keyed on `m_error_code == 0`, not on call
order. -/
theorem C1_counterexample :
    (handle_replay_complete
      (handle_replay_complete ⟨.replaying, 0, "", false, false⟩ 0 "first")
      (-5) "second").error_code = -5 ∧
    (handle_replay_complete
      (handle_replay_complete ⟨.replaying, 0, "", false, false⟩ 0 "first")
      (-5) "second").error_description = "second" ∧
    ("second" : String) ≠ "first" := by
  decide

/-- C1 (amended): starting from a clean latch in `Replaying` or `Idle`,
the first `handle_replay_complete(a, da)` latches `(a, da)` and
transitions to `Complete` exactly once; a second call updates nothing
when `a ≠ 0`, but overwrites the pair when `a = 0` (the latch is keyed on
`m_error_code == 0`). -/
theorem C1_error_latch (s : Core) (a : Int) (da : String) (b : Int) (db : String)
    (h0 : s.error_code = 0) (hs : s.state = .replaying ∨ s.state = .idle) :
    (handle_replay_complete s a da).state = .complete ∧
    (handle_replay_complete (handle_replay_complete s a da) b db).state = .complete ∧
    (a ≠ 0 →
      (handle_replay_complete (handle_replay_complete s a da) b db).error_code = a ∧
      (handle_replay_complete (handle_replay_complete s a da) b db).error_description = da) ∧
    (a = 0 →
      (handle_replay_complete (handle_replay_complete s a da) b db).error_code = b ∧
      (handle_replay_complete (handle_replay_complete s a da) b db).error_description = db) := by
  rcases hs with hs | hs <;>
    simp [handle_replay_complete, h0, hs] <;>
    rcases eq_or_ne a 0 with ha | ha <;>
    simp [ha]

/-- C1 witness: the amended latch behaviour at a concrete input. -/
theorem C1_error_latch_witness :
    (handle_replay_complete ⟨.idle, 0, "", false, false⟩ (-5) "boom").state = .complete ∧
    (handle_replay_complete
      (handle_replay_complete ⟨.idle, 0, "", false, false⟩ (-5) "boom")
      (-7) "later").state = .complete ∧
    (handle_replay_complete
      (handle_replay_complete ⟨.idle, 0, "", false, false⟩ (-5) "boom")
      (-7) "later").error_code = -5 ∧
    (handle_replay_complete
      (handle_replay_complete ⟨.idle, 0, "", false, false⟩ (-5) "boom")
      (-7) "later").error_description = "boom" :=
  ⟨(C1_error_latch ⟨.idle, 0, "", false, false⟩ (-5) "boom" (-7) "later"
      rfl (Or.inr rfl)).1,
   (C1_error_latch ⟨.idle, 0, "", false, false⟩ (-5) "boom" (-7) "later"
      rfl (Or.inr rfl)).2.1,
   ((C1_error_latch ⟨.idle, 0, "", false, false⟩ (-5) "boom" (-7) "later"
      rfl (Or.inr rfl)).2.2.1 (by decide)).1,
   ((C1_error_latch ⟨.idle, 0, "", false, false⟩ (-5) "boom" (-7) "later"
      rfl (Or.inr rfl)).2.2.1 (by decide)).2⟩

/-- C2: the claim that `on_finish` receives the error code latched by
earlier `handle_replay_complete` calls fails on the code: `shut_down`
resets `m_error_code` to 0 (Replayer.cc:141), so a shutdown from `Idle`
with a previously latched `-5` delivers 0 to `on_finish`. -/
theorem C2_counterexample :
    (shut_down ⟨.idle, -5, "prior error", false, false⟩).map
      (fun p => (teardown p.1 0).2) = some 0 ∧
    ((0 : Int) ≠ -5) := by
  decide

/-- C2 (amended): `shut_down` from a non-`Init` state with no held
callback swaps the state to `Complete`, resets the error latch to 0, and
defers teardown exactly when the previous state was `Replaying` (a later
checkpoint then observes `Complete` via `is_replay_interrupted`);
teardown completes `on_finish` exactly once with the error code latched
during teardown itself — `unregister_r` if the watcher unregister failed,
0 otherwise — not with the pre-shutdown latch. -/
theorem C2_shut_down (s : Core)
    (hcb : s.on_init_shutdown = false) (hst : s.state ≠ .stInit) :
    ∃ s' d, shut_down s = some (s', d) ∧
      s'.state = .complete ∧
      s'.error_code = 0 ∧
      s'.on_init_shutdown = true ∧
      (d = true ↔ s.state = .replaying) ∧
      (d = true → is_replay_interrupted s' = true) ∧
      (∀ ur : Int, (teardown s' ur).2 = (if ur < 0 then ur else 0) ∧
        (teardown s' ur).1.on_init_shutdown = false) := by
  refine ⟨{ s with on_init_shutdown := true, error_code := 0,
                   error_description := "", state := .complete },
          decide (s.state = .replaying), ?_, rfl, rfl, rfl, ?_, ?_, ?_⟩
  · simp [shut_down, hcb, hst]
  · simp
  · intro _; rfl
  · intro ur
    constructor
    · by_cases h : ur < 0 <;>
        simp [teardown, handle_replay_complete, h]
    · by_cases h : ur < 0 <;>
        simp [teardown, handle_replay_complete, h]

/-- C2 witness: the amended shutdown behaviour at a concrete input. -/
theorem C2_shut_down_witness :
    (shut_down ⟨.idle, -5, "prior error", false, false⟩).map
      (fun p => (p.1.state, p.1.error_code, (teardown p.1 0).2)) =
      some (.complete, 0, 0) := by
  obtain ⟨s', d, heq, h1, h2, _, _, _, h3⟩ :=
    C2_shut_down ⟨.idle, -5, "prior error", false, false⟩ rfl (by decide)
  rw [heq]
  simp [h1, h2, (h3 0).1]

/-- C6: the claim that an empty `mirror_peer_uuid` reports a negative
code fails on the code: a successful lookup (`r = 0`) returning an empty
uuid queues `on_finish` with `r = 0`, which is not negative
(Replayer.cc:118-122). -/
theorem C6_counterexample :
    (init 0 "").queued_on_finish = some 0 ∧
    (init 0 "").state = .complete ∧
    ¬ ((0 : Int) < 0) := by
  decide

/-- C6 (amended): whenever the peer uuid cannot be resolved — the lookup
failed (`r < 0`) or returned an empty `mirror_peer_uuid` — `init`
transitions directly to `Complete`, queues `on_finish` with the lookup's
return code `r` (negative exactly when the lookup itself failed), and
does not register the update watcher. -/
theorem C6_init_peer_unresolved (r : Int) (uuid : String)
    (h : r < 0 ∨ uuid = "") :
    (init r uuid).state = .complete ∧
    (init r uuid).queued_on_finish = some r ∧
    (init r uuid).registered_watcher = false := by
  simp [init, h]

/-- C6 witness: the amended init failure behaviour at a concrete input. -/
theorem C6_init_peer_unresolved_witness :
    (init (-2) "peer").state = .complete ∧
    (init (-2) "peer").queued_on_finish = some (-2) ∧
    (init (-2) "peer").registered_watcher = false :=
  C6_init_peer_unresolved (-2) "peer" (Or.inl (by decide))

/-- C3: the claim that the resume dispatch carries `resume_object = k`
fails on the code for `k = 0`: with
`last_copied_object_number = 0` the `ImageCopy` request is dispatched
with an empty resume object (`ObjectNumber{}`), not with `0`
(Replayer.cc:571-574). -/
theorem C3_counterexample :
    (exec_copy_image "P"
      ⟨10, 20, 100, 110,
       { state := .nonPrimary, complete := false, primary_mirror_uuid := "R",
         primary_snap_id := 20, last_copied_object_number := 0 },
       { state := .primary, complete := true }⟩
      ⟨0, [], 0, 0, 111, 0, 0, 0, false, 0⟩).1.head? =
      some (.imageCopy 10 20 100 none []) ∧
    ¬ (Request.imageCopy 10 20 100 (some 0) [] ∈
        (exec_copy_image "P"
          ⟨10, 20, 100, 110,
           { state := .nonPrimary, complete := false, primary_mirror_uuid := "R",
             primary_snap_id := 20, last_copied_object_number := 0 },
           { state := .primary, complete := true }⟩
          ⟨0, [], 0, 0, 111, 0, 0, 0, false, 0⟩).1) := by
  decide

/-- C3 (amended): whenever the remote scan finds a complete remote end
snapshot while the local baseline is an in-progress (incomplete)
non-primary mirror snapshot with `last_copied_object_number = k`, the
planner's verdict is the resume dispatch, which enters the executor at
`copy_image` directly: the first request is `ImageCopy` with
`resume_object = k` when `k > 0` (no resume object when `k = 0`) and the
baseline's `snap_seqs`, and the resume execution issues no
`SnapshotCopy` and no `CreateNonPrimary` request. -/
theorem C3_resume_dispatch (lst : LocalScan) (rst : RemoteScan) (upd : Bool)
    (rstate : RState) (peer : String) (env : ExecEnv)
    (hend : rst.remote_snap_id_end ≠ CEPH_NOSNAP)
    (hcomp : rst.remote_mirror_snap_ns.complete = true)
    (hle : lst.local_snap_id_end ≠ CEPH_NOSNAP)
    (hlc : lst.local_mirror_snap_ns.complete = false) :
    scan_remote_post lst rst upd rstate = .copyImageResume ∧
    (exec_copy_image peer (execStateOf ⟨.copyImageResume, lst, rst⟩) env).1.head? =
      some (.imageCopy rst.remote_snap_id_start rst.remote_snap_id_end
        lst.local_snap_id_start
        (if 0 < lst.local_mirror_snap_ns.last_copied_object_number then
           some lst.local_mirror_snap_ns.last_copied_object_number
         else none)
        lst.local_mirror_snap_ns.snap_seqs) ∧
    ∀ r ∈ (exec_copy_image peer (execStateOf ⟨.copyImageResume, lst, rst⟩) env).1,
      r.isSnapshotCopy = false ∧ r.isCreateNonPrimary = false := by
  refine ⟨?_, ?_, ?_⟩
  · simp [scan_remote_post, hend, hcomp, hle, hlc]
  · exact exec_copy_image_head
  · intro r hr
    rcases exec_copy_image_mem hr with h | ⟨a, b, c, h⟩ | h | ⟨a, b, h⟩ <;>
      subst h <;>
      exact ⟨rfl, rfl⟩

/-- C3 witness: the amended resume dispatch at a concrete input
(scenario S3: incomplete local snapshot with cursor 42). -/
theorem C3_resume_dispatch_witness :
    scan_remote_post
      ⟨100, 110, { state := .nonPrimary, complete := false,
                   primary_mirror_uuid := "R", primary_snap_id := 20,
                   last_copied_object_number := 42 }⟩
      ⟨10, 20, { state := .primary, complete := true }, false⟩
      false .replaying = .copyImageResume ∧
    (exec_copy_image "P"
      (execStateOf ⟨.copyImageResume,
        ⟨100, 110, { state := .nonPrimary, complete := false,
                     primary_mirror_uuid := "R", primary_snap_id := 20,
                     last_copied_object_number := 42 }⟩,
        ⟨10, 20, { state := .primary, complete := true }, false⟩⟩)
      ⟨0, [], 0, 0, 111, 0, 0, 0, false, 0⟩).1.head? =
      some (.imageCopy 10 20 100
        (if 0 < ({ state := .nonPrimary, complete := false,
                   primary_mirror_uuid := "R", primary_snap_id := 20,
                   last_copied_object_number := 42 } :
                  MirrorSnapshotNamespace).last_copied_object_number then
           some ({ state := .nonPrimary, complete := false,
                   primary_mirror_uuid := "R", primary_snap_id := 20,
                   last_copied_object_number := 42 } :
                  MirrorSnapshotNamespace).last_copied_object_number
         else none)
        ({ state := .nonPrimary, complete := false,
           primary_mirror_uuid := "R", primary_snap_id := 20,
           last_copied_object_number := 42 } :
          MirrorSnapshotNamespace).snap_seqs) :=
  ⟨(C3_resume_dispatch
      ⟨100, 110, { state := .nonPrimary, complete := false,
                   primary_mirror_uuid := "R", primary_snap_id := 20,
                   last_copied_object_number := 42 }⟩
      ⟨10, 20, { state := .primary, complete := true }, false⟩
      false .replaying "P" ⟨0, [], 0, 0, 111, 0, 0, 0, false, 0⟩
      (by decide) rfl (by decide) rfl).1,
   (C3_resume_dispatch
      ⟨100, 110, { state := .nonPrimary, complete := false,
                   primary_mirror_uuid := "R", primary_snap_id := 20,
                   last_copied_object_number := 42 }⟩
      ⟨10, 20, { state := .primary, complete := true }, false⟩
      false .replaying "P" ⟨0, [], 0, 0, 111, 0, 0, 0, false, 0⟩
      (by decide) rfl (by decide) rfl).2.1⟩

/-- C5: for every successful full-sequence execution, exactly one
`UnlinkPeer(remote_snap_id_start, peer)` request is issued iff
`remote_snap_id_start > 0`; a `-ENOENT` completion is swallowed and the
planner is re-entered at local-refresh, any other negative completion is
terminal. -/
theorem C5_unlink_exactly_once (ru peer : String) (s : ExecState) (env : ExecEnv)
    (h1 : s.remote_snap_id_start ≠ CEPH_NOSNAP)
    (h2 : 0 < s.remote_snap_id_end) (h2b : s.remote_snap_id_end ≠ CEPH_NOSNAP)
    (h3 : s.local_snap_id_start ≠ CEPH_NOSNAP)
    (h4 : 0 ≤ env.copy_snapshots_r) (h5 : 0 ≤ env.get_image_state_r)
    (h6 : 0 ≤ env.create_r) (h7 : 0 ≤ env.copy_image_r) (h8 : 0 ≤ env.update_r)
    (h9 : env.interrupted_after_notify = false) :
    ((exec_copy_snapshots ru peer s env).1.countP (·.isUnlinkPeer) =
      if 0 < s.remote_snap_id_start then 1 else 0) ∧
    (0 < s.remote_snap_id_start →
      Request.unlinkPeer s.remote_snap_id_start peer ∈
        (exec_copy_snapshots ru peer s env).1) ∧
    (env.unlink_r = -2 → (exec_copy_snapshots ru peer s env).2 = .reenterPlanner) ∧
    (0 ≤ env.unlink_r → (exec_copy_snapshots ru peer s env).2 = .reenterPlanner) ∧
    (env.unlink_r < 0 → env.unlink_r ≠ -2 → 0 < s.remote_snap_id_start →
      (exec_copy_snapshots ru peer s env).2 =
        .replayComplete env.unlink_r
          "failed to unlink local peer from remote image") := by
  have hn4 : ¬ env.copy_snapshots_r < 0 := by omega
  have hn5 : ¬ env.get_image_state_r < 0 := by omega
  have hn6 : ¬ env.create_r < 0 := by omega
  have hn7 : ¬ env.copy_image_r < 0 := by omega
  have hn8 : ¬ env.update_r < 0 := by omega
  simp only [exec_copy_snapshots, exec_get_image_state,
    exec_create_non_primary_snapshot, exec_copy_image,
    exec_update_non_primary_snapshot, exec_notify_image_update,
    exec_unlink_peer, h9, hn4, hn5, hn6, hn7, hn8,
    if_neg h1, if_neg h3, if_false, Bool.false_eq_true]
  by_cases hz : s.remote_snap_id_start = 0
  · simp [hz, h2, h2b, List.countP_cons, Request.isUnlinkPeer]
  · have hzp : 0 < s.remote_snap_id_start := Nat.pos_of_ne_zero hz
    by_cases hu : env.unlink_r < 0 ∧ env.unlink_r ≠ -2
    · simp [hz, hu, hzp, h2, h2b, List.countP_cons, Request.isUnlinkPeer]
    · simp [hz, hu, hzp, h2, h2b, List.countP_cons, Request.isUnlinkPeer]
      omega

/-- C5 witness: the full sequence at a concrete input with
`remote_snap_id_start = 10` issues the unlink request and re-enters the
planner. -/
theorem C5_unlink_exactly_once_witness :
    ((exec_copy_snapshots "R" "P" ⟨10, 20, 100, 110, {}, {}⟩
        ⟨0, [(20, 120)], 0, 0, 120, 0, 0, 0, false, 0⟩).1.countP
      (·.isUnlinkPeer) = 1) ∧
    Request.unlinkPeer 10 "P" ∈
      (exec_copy_snapshots "R" "P" ⟨10, 20, 100, 110, {}, {}⟩
        ⟨0, [(20, 120)], 0, 0, 120, 0, 0, 0, false, 0⟩).1 ∧
    (exec_copy_snapshots "R" "P" ⟨10, 20, 100, 110, {}, {}⟩
        ⟨0, [(20, 120)], 0, 0, 120, 0, 0, 0, false, 0⟩).2 = .reenterPlanner := by
  refine ⟨?_, ?_, ?_⟩
  · have h := (C5_unlink_exactly_once "R" "P" ⟨10, 20, 100, 110, {}, {}⟩
      ⟨0, [(20, 120)], 0, 0, 120, 0, 0, 0, false, 0⟩
      (by decide) (by decide) (by decide) (by decide)
      (by decide) (by decide) (by decide) (by decide) (by decide) rfl).1
    simpa using h
  · exact (C5_unlink_exactly_once "R" "P" ⟨10, 20, 100, 110, {}, {}⟩
      ⟨0, [(20, 120)], 0, 0, 120, 0, 0, 0, false, 0⟩
      (by decide) (by decide) (by decide) (by decide)
      (by decide) (by decide) (by decide) (by decide) (by decide) rfl).2.1
      (by decide)
  · exact (C5_unlink_exactly_once "R" "P" ⟨10, 20, 100, 110, {}, {}⟩
      ⟨0, [(20, 120)], 0, 0, 120, 0, 0, 0, false, 0⟩
      (by decide) (by decide) (by decide) (by decide)
      (by decide) (by decide) (by decide) (by decide) (by decide) rfl).2.2.2.1
      (by decide)

/-- C10: every `ImageCopy` request appearing in a full-sequence
execution trace carries no resume object and exactly the `snap_seqs`
written back by that execution's `SnapshotCopy` — never a progress
cursor or `snap_seqs` left over from a previously scanned local
snapshot, because `copy_snapshots` resets the cached namespace to its
default value before dispatching `SnapshotCopy`. -/
theorem C10_full_sequence_fresh (ru peer : String) (s : ExecState)
    (env : ExecEnv) (r : Request)
    (hmem : r ∈ (exec_copy_snapshots ru peer s env).1)
    (hic : r.isImageCopy = true) :
    r = .imageCopy s.remote_snap_id_start s.remote_snap_id_end
      s.local_snap_id_start none env.snap_copy_seqs := by
  unfold exec_copy_snapshots at hmem
  split at hmem
  · simp at hmem
  split at hmem
  · simp at hmem
  split at hmem
  · simp at hmem
  split at hmem
  · simp at hmem
    subst hmem
    simp [Request.isImageCopy] at hic
  · simp only [List.mem_cons] at hmem
    rcases hmem with h | h
    · subst h
      simp [Request.isImageCopy] at hic
    · rcases exec_get_image_state_mem
        (s := { s with local_mirror_snap_ns := { snap_seqs := env.snap_copy_seqs } })
        h with ⟨a, h⟩ | ⟨a, b, c, d, h⟩ | h | ⟨a, b, c, h⟩ | h | ⟨a, b, h⟩
      · subst h; simp [Request.isImageCopy] at hic
      · subst h; simp [Request.isImageCopy] at hic
      · subst h; rfl
      · subst h; simp [Request.isImageCopy] at hic
      · subst h; simp [Request.isImageCopy] at hic
      · subst h; simp [Request.isImageCopy] at hic

/-- C10 witness: the `ImageCopy` of a concrete full-sequence execution
entered with a stale namespace (cursor 9, stale seqs) carries no resume
object and the fresh `snap_seqs`. -/
theorem C10_full_sequence_fresh_witness :
    Request.imageCopy 3 7 5 none [(7, 107)] =
      .imageCopy 3 7 5 none [(7, 107)] :=
  C10_full_sequence_fresh "R" "P"
    ⟨3, 7, 5, 0,
     { last_copied_object_number := 9, snap_seqs := [(1, 2)] }, {}⟩
    ⟨0, [(7, 107)], 0, 0, 120, 0, 0, 0, false, 0⟩
    (.imageCopy 3 7 5 none [(7, 107)])
    (by decide) rfl

/-- C4: the claim quantifies over every local snapshot list whose most
recent mirror snapshot is a non-primary linked to an unknown peer, but a
list also containing an earlier incomplete primary snapshot terminates
with `-EINVAL "incomplete local primary snapshot"` from inside the loop,
before the unknown-peer check is reached. -/
theorem C4_counterexample :
    (plan [(1, some { state := .primary, complete := false }),
           (2, some { state := .nonPrimary, complete := true,
                      primary_mirror_uuid := "X", primary_snap_id := 1 })]
        [] "L" "Y" "P" false false .replaying).verdict =
      .replayComplete (-22) "incomplete local primary snapshot" ∧
    (plan [(1, some { state := .primary, complete := false }),
           (2, some { state := .nonPrimary, complete := true,
                      primary_mirror_uuid := "X", primary_snap_id := 1 })]
        [] "L" "Y" "P" false false .replaying).verdict ≠
      .replayComplete (-17) "local image linked to unknown peer" ∧
    lastMirrorNs [(1, some { state := .primary, complete := false }),
                  (2, some { state := .nonPrimary, complete := true,
                             primary_mirror_uuid := "X", primary_snap_id := 1 })] =
      some { state := .nonPrimary, complete := true,
             primary_mirror_uuid := "X", primary_snap_id := 1 } ∧
    ("X" : String) ≠ "Y" := by
  decide

/-- C4 (amended): for every local snapshot list with positive snap ids
below `CEPH_NOSNAP` whose mirror snapshots all classify cleanly (each is
non-primary, or a complete primary — so the local loop reaches its
post-processing) and whose most recent mirror snapshot is a non-primary
with `primary_mirror_uuid ≠ remote mirror uuid`, the planner terminates
with `-EEXIST "local image linked to unknown peer"`, regardless of the
remote snapshot list (the verdict is reached before any remote scan). -/
theorem C4_unknown_peer (lsnaps rsnaps : SnapList) (lu ru peer : String)
    (pre upd : Bool) (lns : MirrorSnapshotNamespace)
    (hok : ∀ e ∈ lsnaps, ∀ ns, e.2 = some ns →
      ns.is_non_primary = true ∨ (ns.is_primary = true ∧ ns.complete = true))
    (hpos : ∀ e ∈ lsnaps, 0 < e.1 ∧ e.1 < CEPH_NOSNAP)
    (hlast : lastMirrorNs lsnaps = some lns)
    (hnp : lns.is_non_primary = true)
    (huuid : lns.primary_mirror_uuid ≠ ru) :
    (plan lsnaps rsnaps lu ru peer pre upd .replaying).verdict =
      .replayComplete (-17) "local image linked to unknown peer" := by
  obtain ⟨st', heq, hlns, hinv⟩ :=
    scan_local_loop_total lsnaps ⟨0, CEPH_NOSNAP, {}⟩ hok hpos
  have hbase : 0 < st'.local_snap_id_start ∨
      st'.local_snap_id_end ≠ CEPH_NOSNAP :=
    hinv (Or.inr (by simp [hlast]))
  have hlns' : st'.local_mirror_snap_ns = lns := by
    rw [hlns, hlast]
    rfl
  have hscan : scan_local lsnaps ru =
      .replayComplete (-17) "local image linked to unknown peer" := by
    unfold scan_local
    simp only [heq]
    rw [if_pos hbase, if_pos ⟨by rw [hlns']; exact hnp, by rw [hlns']; exact huuid⟩]
  simp [plan, hscan]

/-- C4 witness: the amended unknown-peer termination at a concrete input
(scenario S6). -/
theorem C4_unknown_peer_witness :
    (plan [(100, some { state := .nonPrimary, complete := true,
                        primary_mirror_uuid := "X", primary_snap_id := 10 })]
        [(10, some { state := .primary, complete := true,
                     mirror_peer_uuids := ["P"] })]
        "L" "Y" "P" false false .replaying).verdict =
      .replayComplete (-17) "local image linked to unknown peer" :=
  C4_unknown_peer
    [(100, some { state := .nonPrimary, complete := true,
                  primary_mirror_uuid := "X", primary_snap_id := 10 })]
    [(10, some { state := .primary, complete := true,
                 mirror_peer_uuids := ["P"] })]
    "L" "Y" "P" false false
    { state := .nonPrimary, complete := true,
      primary_mirror_uuid := "X", primary_snap_id := 10 }
    (by decide) (by decide) (by decide) (by decide) (by decide)

/-- C9: the claimed preconditions fail on the code: a local image whose
baseline is a complete primary-demoted snapshot with the default
`primary_snap_id = CEPH_NOSNAP` seeds `m_remote_snap_id_start` with
`CEPH_NOSNAP` (Replayer.cc:308-311); when the remote image has no
matching demotion snapshot before a complete primary snapshot carrying
our peer, the "still looking" guard `m_remote_snap_id_start == 0`
(Replayer.cc:387) does not fire, the snapshot is accepted, and
`copy_snapshots` is dispatched with
`m_remote_snap_id_start == CEPH_NOSNAP`, firing its first
`ceph_assert`. -/
theorem C9_counterexample :
    (plan [(1, some { state := .primaryDemoted, complete := true })]
        [(5, some { state := .primary, complete := true,
                    mirror_peer_uuids := ["P"] })]
        "L" "R" "P" false false .replaying).verdict = .copySnapshots ∧
    (plan [(1, some { state := .primaryDemoted, complete := true })]
        [(5, some { state := .primary, complete := true,
                    mirror_peer_uuids := ["P"] })]
        "L" "R" "P" false false .replaying).rst.remote_snap_id_start =
      CEPH_NOSNAP ∧
    (exec_copy_snapshots "R" "P"
      (execStateOf (plan [(1, some { state := .primaryDemoted, complete := true })]
        [(5, some { state := .primary, complete := true,
                    mirror_peer_uuids := ["P"] })]
        "L" "R" "P" false false .replaying))
      ⟨0, [], 0, 0, 120, 0, 0, 0, false, 0⟩).2 = .assertFail := by
  decide

/-- C9 (amended): for snapshot lists whose ids lie in
`(0, CEPH_NOSNAP)` and whose local mirror namespaces all carry
`primary_snap_id < CEPH_NOSNAP` (ruling out the counterexample's
default-`CEPH_NOSNAP` primary-demoted baseline), every planner pass
dispatching `copySnapshots` satisfies the asserted preconditions
`remote_snap_id_start ≠ CEPH_NOSNAP`,
`0 < remote_snap_id_end < CEPH_NOSNAP`,
`local_snap_id_start ≠ CEPH_NOSNAP`, and the executor entered at
`copy_snapshots` never reaches an assertion failure. -/
theorem C9_copy_snapshots_preconds (lsnaps rsnaps : SnapList)
    (lu ru peer : String) (pre upd : Bool) (rstate : RState)
    (hl : ∀ e ∈ lsnaps, 0 < e.1 ∧ e.1 < CEPH_NOSNAP)
    (hlns : ∀ e ∈ lsnaps, ∀ ns, e.2 = some ns →
      ns.primary_snap_id < CEPH_NOSNAP)
    (hr : ∀ e ∈ rsnaps, 0 < e.1 ∧ e.1 < CEPH_NOSNAP)
    (po : PlannerOut)
    (hpo : plan lsnaps rsnaps lu ru peer pre upd rstate = po)
    (hv : po.verdict = .copySnapshots) :
    po.rst.remote_snap_id_start ≠ CEPH_NOSNAP ∧
    0 < po.rst.remote_snap_id_end ∧
    po.rst.remote_snap_id_end ≠ CEPH_NOSNAP ∧
    po.lst.local_snap_id_start ≠ CEPH_NOSNAP ∧
    ∀ env : ExecEnv,
      (exec_copy_snapshots ru peer (execStateOf po) env).2 ≠ .assertFail := by
  subst hpo
  unfold plan at hv ⊢
  by_cases hc : rstate = .complete
  · rw [if_pos hc] at hv
    simp at hv
  · rw [if_neg hc] at hv ⊢
    cases hsl : scan_local lsnaps ru with
    | replayComplete c d =>
      simp only [hsl] at hv
      simp at hv
    | ok lst seed =>
      simp only [hsl] at hv ⊢
      have hseed := scan_local_seed_bounds lsnaps ru lst seed
        (fun e he => (hl e he).2) hlns hsl
      cases hloop : scan_remote_loop lst lu ru peer rsnaps
          ⟨seed, CEPH_NOSNAP, {}, false⟩ with
      | replayComplete c d =>
        simp only [hloop] at hv
        simp at hv
      | assertFail =>
        simp only [hloop] at hv
        simp at hv
      | done rst =>
        simp only [hloop] at hv ⊢
        obtain ⟨hend, _⟩ := scan_remote_post_copySnapshots hv
        obtain ⟨hstart, hendb⟩ := scan_remote_loop_bounds lst lu ru peer
          rsnaps ⟨seed, CEPH_NOSNAP, {}, false⟩ rst hr hseed.1 (Or.inl rfl)
          hloop
        have hendb' : 0 < rst.remote_snap_id_end ∧
            rst.remote_snap_id_end < CEPH_NOSNAP := by
          rcases hendb with h | h
          · exact absurd h hend
          · exact h
        refine ⟨Nat.ne_of_lt hstart, hendb'.1, Nat.ne_of_lt hendb'.2,
          Nat.ne_of_lt hseed.2, ?_⟩
        intro env
        unfold exec_copy_snapshots
        rw [if_neg (show ¬ (execStateOf ⟨scan_remote_post lst rst upd rstate,
            lst, rst⟩).remote_snap_id_start = CEPH_NOSNAP from
            Nat.ne_of_lt hstart)]
        rw [if_neg (show ¬ ¬ (0 < (execStateOf ⟨scan_remote_post lst rst upd
            rstate, lst, rst⟩).remote_snap_id_end ∧
            (execStateOf ⟨scan_remote_post lst rst upd rstate, lst,
            rst⟩).remote_snap_id_end ≠ CEPH_NOSNAP) from
            not_not_intro ⟨hendb'.1, Nat.ne_of_lt hendb'.2⟩)]
        rw [if_neg (show ¬ (execStateOf ⟨scan_remote_post lst rst upd rstate,
            lst, rst⟩).local_snap_id_start = CEPH_NOSNAP from
            Nat.ne_of_lt hseed.2)]
        split
        · simp
        · exact exec_get_image_state_no_assert

/-- C9 witness: the amended preconditions at a concrete input (scenario
S2, which dispatches the full sequence with `remote_snap_id_start = 10`,
`remote_snap_id_end = 20`, `local_snap_id_start = 100`). -/
theorem C9_copy_snapshots_preconds_witness :
    (plan [(100, some { state := .nonPrimary, complete := true,
                        primary_mirror_uuid := "R", primary_snap_id := 10 })]
        [(10, some { state := .primary, complete := true,
                     mirror_peer_uuids := ["P"] }),
         (20, some { state := .primary, complete := true,
                     mirror_peer_uuids := ["P"] })]
        "L" "R" "P" false false .replaying).rst.remote_snap_id_start ≠
      CEPH_NOSNAP ∧
    0 < (plan [(100, some { state := .nonPrimary, complete := true,
                            primary_mirror_uuid := "R", primary_snap_id := 10 })]
        [(10, some { state := .primary, complete := true,
                     mirror_peer_uuids := ["P"] }),
         (20, some { state := .primary, complete := true,
                     mirror_peer_uuids := ["P"] })]
        "L" "R" "P" false false .replaying).rst.remote_snap_id_end ∧
    (plan [(100, some { state := .nonPrimary, complete := true,
                        primary_mirror_uuid := "R", primary_snap_id := 10 })]
        [(10, some { state := .primary, complete := true,
                     mirror_peer_uuids := ["P"] }),
         (20, some { state := .primary, complete := true,
                     mirror_peer_uuids := ["P"] })]
        "L" "R" "P" false false .replaying).rst.remote_snap_id_end ≠
      CEPH_NOSNAP ∧
    (plan [(100, some { state := .nonPrimary, complete := true,
                        primary_mirror_uuid := "R", primary_snap_id := 10 })]
        [(10, some { state := .primary, complete := true,
                     mirror_peer_uuids := ["P"] }),
         (20, some { state := .primary, complete := true,
                     mirror_peer_uuids := ["P"] })]
        "L" "R" "P" false false .replaying).lst.local_snap_id_start ≠
      CEPH_NOSNAP := by
  have h := C9_copy_snapshots_preconds
    [(100, some { state := .nonPrimary, complete := true,
                  primary_mirror_uuid := "R", primary_snap_id := 10 })]
    [(10, some { state := .primary, complete := true,
                 mirror_peer_uuids := ["P"] }),
     (20, some { state := .primary, complete := true,
                 mirror_peer_uuids := ["P"] })]
    "L" "R" "P" false false .replaying
    (by decide) (by decide) (by decide) _ rfl (by decide)
  exact ⟨h.1, h.2.1, h.2.2.1, h.2.2.2.1⟩

end Replayer
